import Mathlib

/-!
Verification development for the OpenColorIO excerpt consisting of
FileFormatIridasItx.cpp, FileFormatSpi1D.cpp and FixedFunctionOp.cpp.
The C++ functions are shallowly embedded as Lean functions over lists of
characters (text lines), rationals (floating-point sample values) and
explicit state records.  Components of the repository that are not part
of the three source files (the direction algebra of ParseUtils, the LUT
op-data containers, the op constructors) are modelled from the
specification and marked as such in their doc comments.
-/

set_option maxRecDepth 10000

/-- Direction enumeration of a transform: TRANSFORM_DIR_FORWARD,
TRANSFORM_DIR_INVERSE, TRANSFORM_DIR_UNKNOWN. -/
inductive TransformDirection where
  | forward
  | inverse
  | unknown
deriving DecidableEq, Repr

/-- Modelled from the spec: CombineTransformDirections (declared in
ParseUtils.h, implementation not under src/).  Section 3 of the spec gives
the table: Forward composed with X is X; Inverse with Forward is Inverse;
Inverse with Inverse is Forward; anything with Unknown, or Unknown with
anything, is Unknown. -/
def CombineTransformDirections :
    TransformDirection → TransformDirection → TransformDirection
  | TransformDirection.unknown, _ => TransformDirection.unknown
  | _, TransformDirection.unknown => TransformDirection.unknown
  | TransformDirection.forward, d => d
  | TransformDirection.inverse, TransformDirection.forward =>
      TransformDirection.inverse
  | TransformDirection.inverse, TransformDirection.inverse =>
      TransformDirection.forward

/-- Interpolation enumeration carried by FileTransform and stored on the
LUT op data by setInterpolation. -/
inductive Interpolation where
  | unknownInterp
  | nearest
  | linear
  | tetrahedral
  | best
  | defaultInterp
deriving DecidableEq, Repr

/-- Bit-depth tag; the two readers call setFileOutputBitDepth with
BIT_DEPTH_F32. -/
inductive BitDepth where
  | unknownDepth
  | f32
deriving DecidableEq, Repr

/-! ### Text helpers (pystring::strip, lower, split, startswith)
Lines of the input stream are modelled as lists of characters. -/

/-- Embedding of pystring::strip with the default separator set: remove
leading and trailing whitespace. -/
def stripChars (cs : List Char) : List Char :=
  ((cs.dropWhile Char.isWhitespace).reverse.dropWhile Char.isWhitespace).reverse

/-- Embedding of pystring::lower: lowercase every character. -/
def lowerChars (cs : List Char) : List Char :=
  cs.map Char.toLower

/-- Helper for splitWs: accumulates the current word (reversed). -/
def splitWsAux : List Char → List Char → List (List Char)
  | [], acc => if acc.isEmpty then [] else [acc.reverse]
  | c :: rest, acc =>
      if c.isWhitespace then
        if acc.isEmpty then splitWsAux rest []
        else acc.reverse :: splitWsAux rest []
      else splitWsAux rest (c :: acc)

/-- Embedding of pystring::split with no separator: split on runs of
whitespace, producing no empty tokens. -/
def splitWs (cs : List Char) : List (List Char) :=
  splitWsAux cs []

/-- Embedding of pystring::startswith on raw lines. -/
def startsWithChars (cs pre : List Char) : Bool :=
  pre.isPrefixOf cs

/-! ### Numeric token parsing (StringToInt, StringVecToFloatVec, sscanf)
Floating-point values are modelled as rationals; the readers only rely on
decimal literals of the form [sign] digits [. digits], which the embedding
parses exactly.  As in the C++ helpers (istringstream extraction and
sscanf), leftover characters after the numeral do not cause a failure. -/

/-- Numeric value of a list of decimal digit characters. -/
def digitsVal (ds : List Char) : Nat :=
  ds.foldl (fun a c => 10 * a + (c.toNat - 48)) 0

/-- Parse an optional sign followed by at least one decimal digit from the
front of the character list; return the integer and the rest. -/
def parseIntPre (cs : List Char) : Option (Int × List Char) :=
  let signAndRest : Int × List Char :=
    match cs with
    | ('-') :: t => (-1, t)
    | ('+') :: t => (1, t)
    | _ => (1, cs)
  let ds := signAndRest.2.takeWhile Char.isDigit
  let rest := signAndRest.2.dropWhile Char.isDigit
  if ds.isEmpty then none
  else some (signAndRest.1 * Int.ofNat (digitsVal ds), rest)

/-- Parse a decimal numeral [sign] digits [. digits] (at least one digit
overall) from the front of the character list; return value and rest. -/
def parseRatPre (cs : List Char) : Option (ℚ × List Char) :=
  let signAndRest : Int × List Char :=
    match cs with
    | ('-') :: t => (-1, t)
    | ('+') :: t => (1, t)
    | _ => (1, cs)
  let ds1 := signAndRest.2.takeWhile Char.isDigit
  let rest1 := signAndRest.2.dropWhile Char.isDigit
  match rest1 with
  | ('.') :: t =>
      let ds2 := t.takeWhile Char.isDigit
      let rest2 := t.dropWhile Char.isDigit
      if ds1.isEmpty ∧ ds2.isEmpty then none
      else
        some (mkRat (signAndRest.1 *
            Int.ofNat (digitsVal ds1 * 10 ^ ds2.length + digitsVal ds2))
            (10 ^ ds2.length),
          rest2)
  | _ =>
      if ds1.isEmpty then none
      else some (mkRat (signAndRest.1 * Int.ofNat (digitsVal ds1)) 1, rest1)

/-- Embedding of StringToInt on a whitespace-free token (leftover
characters permitted, as with the default istringstream extraction). -/
def parseIntTok (cs : List Char) : Option Int :=
  (parseIntPre cs).map (fun p => p.1)

/-- Embedding of StringToFloat on a single token. -/
def parseRatTok (cs : List Char) : Option ℚ :=
  (parseRatPre cs).map (fun p => p.1)

/-- Embedding of StringVecToFloatVec: convert every token, failing if any
single conversion fails. -/
def parseFloats : List (List Char) → Option (List ℚ)
  | [] => some []
  | t :: rest =>
      match parseRatTok t, parseFloats rest with
      | some v, some vs => some (v :: vs)
      | _, _ => none

/-- Skip leading whitespace, as the sscanf conversions %d and %f do. -/
def skipWs (cs : List Char) : List Char :=
  cs.dropWhile Char.isWhitespace

/-- Embedding of a sscanf %d conversion applied after a matched literal
tag: skip whitespace, then read a signed integer. -/
def scanIntWs (cs : List Char) : Option Int :=
  parseIntTok (skipWs cs)

/-- Embedding of a sscanf %f conversion: skip whitespace, then read a
signed decimal numeral, returning the value and the remaining text. -/
def scanRatWs (cs : List Char) : Option (ℚ × List Char) :=
  parseRatPre (skipWs cs)

/-! ### LUT op data and cached-file records -/

/-- Modelled from the spec: Lut3DOpData (ops/lut3d, not under src/).
Section 3 of the spec: a cube of edge size N stored as a flat sequence of
3 times N cubed values in red-fastest order.  The constructor argument is
the edge size; the array content before setArrayFromRedFastestOrder is
irrelevant to the claims and is modelled as zeros. -/
structure Lut3DOpData where
  size : Int
  interpolation : Interpolation
  fileOutputBitDepth : BitDepth
  array : List ℚ
deriving DecidableEq, Repr

/-- Modelled from the spec: the Lut3DOpData constructor used by the itx
reader, taking the declared edge size. -/
def mkLut3DOpData (size : Int) : Lut3DOpData :=
  { size := size
    interpolation := Interpolation.defaultInterp
    fileOutputBitDepth := BitDepth.unknownDepth
    array := List.replicate (3 * (size.toNat * size.toNat * size.toNat)) 0 }

/-- Modelled from the spec, section 4.2: setArrayFromRedFastestOrder
accepts external data already in red-fastest order and stores it directly
(no reordering; the external format already matches the internal
layout). -/
def setArrayFromRedFastestOrder (lut : Lut3DOpData) (raw : List ℚ) :
    Lut3DOpData :=
  { lut with array := raw }

/-- Modelled from the spec: Lut1DOpData (ops/lut1d, not under src/).
Section 3 of the spec: an ordered sequence of length sample triples
stored as a flat sequence of 3 times length values.  The constructor
argument is the length; the initial array content is irrelevant to the
claims (the spi1d reader overwrites the entries it accepts) and is
modelled as zeros. -/
structure Lut1DOpData where
  length : Nat
  interpolation : Interpolation
  fileOutputBitDepth : BitDepth
  array : List ℚ
deriving DecidableEq, Repr

/-- Modelled from the spec: the Lut1DOpData constructor used by the spi1d
reader, taking the declared length. -/
def mkLut1DOpData (len : Nat) : Lut1DOpData :=
  { length := len
    interpolation := Interpolation.defaultInterp
    fileOutputBitDepth := BitDepth.unknownDepth
    array := List.replicate (3 * len) 0 }

/-- LocalCachedFile of FileFormatIridasItx.cpp: holds the parsed 3-D LUT
(pointer modelled as an Option). -/
structure ItxCachedFile where
  lut3D : Option Lut3DOpData
deriving DecidableEq, Repr

/-- LocalCachedFile of FileFormatSpi1D.cpp: parsed 1-D LUT plus the From
domain bounds, defaulting to 0 and 1. -/
structure Spi1DCachedFile where
  lut : Lut1DOpData
  from_min : ℚ
  from_max : ℚ
deriving DecidableEq, Repr

/-- Modelled from the spec: the ops appended by CreateLut1DOp,
CreateMinMaxOp and CreateLut3DOp (op constructors not under src/).  Per
section 4.6 and Scenario D, each constructor appends one op of the
corresponding kind carrying its data and the requested direction. -/
inductive Op where
  | lut1DOp (lut : Lut1DOpData) (dir : TransformDirection)
  | minMaxOp (mins maxs : List ℚ) (dir : TransformDirection)
  | lut3DOp (lut : Lut3DOpData) (dir : TransformDirection)
deriving DecidableEq, Repr

/-! ### FileFormatIridasItx.cpp: read -/

/-- Structured form of the arguments the itx reader passes to
ThrowErrorMessage: message, 1-based line number (or -1 for a whole-file
error) and raw offending line. -/
structure ItxError where
  error : String
  line : Int
  lineContent : String
deriving DecidableEq, Repr

/-- LocalFileFormat::ThrowErrorMessage of FileFormatIridasItx.cpp: the
final exception text; the line part is omitted when the line is -1. -/
def itxErrorString (fileName : String) (e : ItxError) : String :=
  ("Error parsing Iridas .itx file (") ++ fileName ++ (").  ") ++
    (if e.line ≠ -1 then
      ("At line (") ++ toString e.line ++ ("): \x27") ++ e.lineContent ++
        ("\x27.  ")
    else ("")) ++
    e.error

/-- Parsing loop of LocalFileFormat::read in FileFormatIridasItx.cpp:
lines starting with a hash sign are comments; a lut_3d_size tag (after
strip, lower, split) records the size and enters 3-D mode; afterwards
every non-empty line must be a float triple, appended to the raw vector.
Lines before the tag that are not the tag are ignored.  State: remaining
lines, current line number, raw values, size3d, in3d. -/
def itxReadLoop :
    List (List Char) → Nat → List ℚ → Int → Bool →
      Except ItxError (List ℚ × Int × Bool)
  | [], _, raw, size3d, in3d => Except.ok (raw, size3d, in3d)
  | l :: rest, lineNumber, raw, size3d, in3d =>
      let n := lineNumber + 1
      if startsWithChars l (("#").data) then
        itxReadLoop rest n raw size3d in3d
      else
        match splitWs (lowerChars (stripChars l)) with
        | [] => itxReadLoop rest n raw size3d in3d
        | p0 :: ptail =>
            if lowerChars p0 = ("lut_3d_size").data then
              match ptail with
              | [p1] =>
                  match parseIntTok p1 with
                  | some size =>
                      itxReadLoop rest n raw size true
                  | none =>
                      Except.error
                        { error := ("Malformed LUT_3D_SIZE tag.")
                          line := Int.ofNat n
                          lineContent := String.mk l }
              | _ =>
                  Except.error
                    { error := ("Malformed LUT_3D_SIZE tag.")
                      line := Int.ofNat n
                      lineContent := String.mk l }
            else if in3d then
              match parseFloats (p0 :: ptail) with
              | some vals =>
                  if vals.length = 3 then
                    itxReadLoop rest n (raw ++ vals) size3d in3d
                  else
                    Except.error
                      { error := ("Malformed color triples specified.")
                        line := Int.ofNat n
                        lineContent := String.mk l }
              | none =>
                  Except.error
                    { error := ("Malformed color triples specified.")
                      line := Int.ofNat n
                      lineContent := String.mk l }
            else itxReadLoop rest n raw size3d in3d

/-- LocalFileFormat::read of FileFormatIridasItx.cpp over a stream given
as a list of lines: run the parsing loop, then validate the declared cube
size against the number of parsed triples, build the Lut3DOpData, set the
file output bit depth to F32 and store the raw values in red-fastest
order. -/
def itxRead (lines : List (List Char)) : Except ItxError ItxCachedFile := do
  let (raw, size3d, in3d) ← itxReadLoop lines 0 [] 0 false
  if in3d then
    if size3d * size3d * size3d ≠ Int.ofNat (raw.length / 3) then
      Except.error
        { error := ("Incorrect number of 3D LUT entries. Found ") ++
            toString (raw.length / 3) ++ (", expected ") ++
            toString (size3d * size3d * size3d) ++ (".")
          line := -1
          lineContent := ("") }
    else
      Except.ok
        { lut3D := some (setArrayFromRedFastestOrder
            { mkLut3DOpData size3d with fileOutputBitDepth := BitDepth.f32 }
            raw) }
  else
    Except.error
      { error := ("No 3D LUT found."), line := -1, lineContent := ("") }

/-! ### FileFormatIridasItx.cpp: bake -/

/-- Cube edge size used by LocalFileFormat::bake: the default 64 when the
baker cube size is unset (-1), then clamped below by 2 (smallest cube is
2x2x2). -/
def itxBakeSize (requested : Int) : Int :=
  max 2 (if requested = -1 then 64 else requested)

/-- The six decimal digits of a natural number below one million, most
significant first (zero padded). -/
def pad6 (m : Nat) : List Char :=
  [Nat.digitChar (m / 100000 % 10), Nat.digitChar (m / 10000 % 10),
   Nat.digitChar (m / 1000 % 10), Nat.digitChar (m / 100 % 10),
   Nat.digitChar (m / 10 % 10), Nat.digitChar (m % 10)]

/-- Embedding of ostream output under std::ios::fixed with precision 6: a
sign for negative values, the integer part, a point and exactly six
decimal digits.  The float-to-decimal rounding of the C++ runtime is
modelled by rounding the rational to the nearest millionth. -/
def fixed6 (q : ℚ) : String :=
  let n : Int := round (|q| * 1000000)
  (if q < 0 then ("-") else ("")) ++ toString (n / 1000000) ++ (".") ++
    String.mk (pad6 (n % 1000000).toNat)

/-- One output row of bake: three space-separated fixed 6-decimal values
followed by a newline. -/
def itxSampleLine (t : ℚ × ℚ × ℚ) : String :=
  fixed6 t.1 ++ (" ") ++ fixed6 t.2.1 ++ (" ") ++ fixed6 t.2.2 ++ ("\n")

/-- Modelled from the spec: GenerateIdentityLut3D with LUT3DORDER_FAST_RED
(Lut3DOp.cpp, not under src/) renders the identity grid of the declared
size in red-fastest order (section 6: the bake path renders a
declared-size identity grid).  Sample i of the flat pixel buffer holds
channels 3i, 3i+1 and 3i+2, modelled as the i-th triple. -/
def GenerateIdentityLut3D (n : Nat) : List (ℚ × ℚ × ℚ) :=
  (List.range (n * n * n)).map fun i =>
    ((i % n : ℕ) / ((n : ℚ) - 1),
     (i / n % n : ℕ) / ((n : ℚ) - 1),
     (i / (n * n) : ℕ) / ((n : ℚ) - 1))

/-- LocalFileFormat::bake of FileFormatIridasItx.cpp.  The processor the
baker builds from its config (input space, target space, optional looks)
is external to the excerpt; per section 4.4 of the spec the CPU processor
applies a pure per-pixel evaluator, abstracted here as the parameter
pixelEval.  The function returns the full text written to the output
stream: the LUT_3D_SIZE header, one fixed 6-decimal triple row per cube
sample in red-fastest order, and a final blank line. -/
def itxBake (formatName : String) (requestedCubeSize : Int)
    (pixelEval : ℚ × ℚ × ℚ → ℚ × ℚ × ℚ) : Except String String :=
  if formatName ≠ ("iridas_itx") then
    Except.error (("Unknown 3dl format name, \x27") ++ formatName ++
      ("\x27."))
  else
    let cubeSize := itxBakeSize requestedCubeSize
    let n := cubeSize.toNat
    let cubeData := (GenerateIdentityLut3D n).map pixelEval
    if cubeSize < 2 then Except.error ("Internal cube size exception.")
    else
      Except.ok (("LUT_3D_SIZE ") ++ toString cubeSize ++ ("\n") ++
        String.join (cubeData.map itxSampleLine) ++ ("\n"))

/-! ### FileFormatIridasItx.cpp and FileFormatSpi1D.cpp: buildFileOps -/

/-- LocalFileFormat::buildFileOps of FileFormatIridasItx.cpp.  The cache
cast is modelled by the typed argument; combining the requested direction
with the file transform direction yields the new direction, and an
Unknown result aborts with the direction error before any op is appended.
Otherwise the interpolation is stored on the cached LUT and CreateLut3DOp
appends one 3-D LUT op under the combined direction. -/
def itxBuildFileOps (ops : List Op) (cachedFile : ItxCachedFile)
    (fileTransformDir : TransformDirection) (interp : Interpolation)
    (dir : TransformDirection) : Except String (List Op) :=
  let newDir := CombineTransformDirections dir fileTransformDir
  if newDir = TransformDirection.unknown then
    Except.error (("Cannot build file format transform,") ++
      (" unspecified transform direction."))
  else
    match cachedFile.lut3D with
    | some lut =>
        Except.ok (ops ++
          [Op.lut3DOp { lut with interpolation := interp } newDir])
    | none => Except.ok ops

/-- LocalFileFormat::buildFileOps of FileFormatSpi1D.cpp.  The cache cast
is modelled by the typed argument.  The combined direction is computed,
but no Unknown check is performed: the forward branch appends the min-max
op then the 1-D LUT op, and every other combined direction (Inverse and
Unknown alike) takes the else branch, appending the 1-D LUT op inverted
then the min-max op inverted. -/
def spi1dBuildFileOps (ops : List Op) (cachedFile : Spi1DCachedFile)
    (fileTransformDir : TransformDirection) (interp : Interpolation)
    (dir : TransformDirection) : List Op :=
  let newDir := CombineTransformDirections dir fileTransformDir
  let mins := [cachedFile.from_min, cachedFile.from_min, cachedFile.from_min]
  let maxs := [cachedFile.from_max, cachedFile.from_max, cachedFile.from_max]
  let lut := { cachedFile.lut with interpolation := interp }
  if newDir = TransformDirection.forward then
    ops ++ [Op.minMaxOp mins maxs TransformDirection.forward,
            Op.lut1DOp lut TransformDirection.forward]
  else
    ops ++ [Op.lut1DOp lut TransformDirection.inverse,
            Op.minMaxOp mins maxs TransformDirection.inverse]

/-! ### FileFormatSpi1D.cpp: read -/

/-- Structured form of the arguments the spi1d reader passes to
ThrowErrorMessage. -/
structure SpiError where
  error : String
  line : Int
  lineContent : String
deriving DecidableEq, Repr

/-- LocalFileFormat::ThrowErrorMessage of FileFormatSpi1D.cpp. -/
def spi1dErrorString (fileName : String) (e : SpiError) : String :=
  ("Error parsing .spi1d file (") ++ fileName ++ (").  ") ++
    (if e.line ≠ -1 then
      ("At line (") ++ toString e.line ++ ("): \x27") ++ e.lineContent ++
        ("\x27.  ")
    else ("")) ++
    e.error

/-- Header state of LocalFileFormat::read in FileFormatSpi1D.cpp:
lut_size, from_min, from_max, version and components start at their
sentinel or default values; currentLine counts consumed lines. -/
structure SpiHeaderState where
  lut_size : Int
  from_min : ℚ
  from_max : ℚ
  version : Int
  components : Int
  currentLine : Nat
deriving DecidableEq, Repr

/-- Initial header state of the spi1d reader. -/
def spiHeaderInit : SpiHeaderState :=
  { lut_size := -1, from_min := 0, from_max := 1, version := -1
    components := -1, currentLine := 0 }

/-- Processing of one header line in the do-while loop of the spi1d
reader: the Version, From, Components and Length tags are recognized by a
startswith test on the raw line and their values extracted with sscanf
conversions; a Version other than 1 is rejected. -/
def spi1dHeaderLine (st : SpiHeaderState) (l : List Char) :
    Except SpiError SpiHeaderState :=
  if startsWithChars l (("Version").data) then
    match scanIntWs (l.drop 7) with
    | none =>
        Except.error { error := ("Invalid \x27Version\x27 Tag.")
                       line := Int.ofNat st.currentLine
                       lineContent := String.mk l }
    | some v =>
        if v ≠ 1 then
          Except.error { error := ("Only format version 1 supported.")
                         line := Int.ofNat st.currentLine
                         lineContent := String.mk l }
        else Except.ok { st with version := v }
  else if startsWithChars l (("From").data) then
    match scanRatWs (l.drop 4) with
    | none =>
        Except.error { error := ("Invalid \x27From\x27 Tag.")
                       line := Int.ofNat st.currentLine
                       lineContent := String.mk l }
    | some (v1, rest1) =>
        match scanRatWs rest1 with
        | none =>
            Except.error { error := ("Invalid \x27From\x27 Tag.")
                           line := Int.ofNat st.currentLine
                           lineContent := String.mk l }
        | some (v2, _) =>
            Except.ok { st with from_min := v1, from_max := v2 }
  else if startsWithChars l (("Components").data) then
    match scanIntWs (l.drop 10) with
    | none =>
        Except.error { error := ("Invalid \x27Components\x27 Tag.")
                       line := Int.ofNat st.currentLine
                       lineContent := String.mk l }
    | some v => Except.ok { st with components := v }
  else if startsWithChars l (("Length").data) then
    match scanIntWs (l.drop 6) with
    | none =>
        Except.error { error := ("Invalid \x27Length\x27 Tag.")
                       line := Int.ofNat st.currentLine
                       lineContent := String.mk l }
    | some v => Except.ok { st with lut_size := v }
  else Except.ok st

/-- Header do-while loop of the spi1d reader: consume lines (counting
them), processing each through spi1dHeaderLine, until a line starting
with an opening brace has been processed or the stream is exhausted.
Returns the final header state and the remaining lines. -/
def spi1dHeaderLoop :
    List (List Char) → SpiHeaderState →
      Except SpiError (SpiHeaderState × List (List Char))
  | [], st => Except.ok (st, [])
  | l :: rest, st => do
      let st1 ← spi1dHeaderLine { st with currentLine := st.currentLine + 1 } l
      if startsWithChars l (("\x7b").data) then Except.ok (st1, rest)
      else spi1dHeaderLoop rest st1

/-- Body state of the spi1d reader: the LUT sample array, the running
flat write index i, the count of accepted value lines, the current line
number, and the trace of flat array indices written (in order), which the
embedding records because the C++ loop performs the writes through the
unchecked Array subscript operator. -/
structure SpiBodyState where
  arr : List ℚ
  i : Nat
  lineCount : Nat
  currentLine : Nat
  writes : List Nat
deriving DecidableEq, Repr

/-- One accepted value line of the spi1d body: replicate a 1-component
value to R, G and B; pad a 2-component entry with 0; store a 3-component
entry as is.  Writes land at flat indices i, i+1 and i+2 (recorded in the
trace; a write beyond the array length leaves the array unchanged, the
C++ counterpart being an out-of-bounds vector access). -/
def spi1dStoreLine (st : SpiBodyState) (components : Int)
    (values : List ℚ) : SpiBodyState :=
  let v0 := values.headD 0
  let v1 := (values.drop 1).headD 0
  let v2 := (values.drop 2).headD 0
  let triple : List ℚ :=
    if components = 1 then [v0, v0, v0]
    else if components = 2 then [v0, v1, 0]
    else [v0, v1, v2]
  { st with
    arr := ((st.arr.set st.i (triple.headD 0)).set (st.i + 1)
        ((triple.drop 1).headD 0)).set (st.i + 2) ((triple.drop 2).headD 0)
    i := st.i + 3
    lineCount := st.lineCount + 1
    writes := st.writes ++ [st.i, st.i + 1, st.i + 2] }

/-- Body while loop of the spi1d reader: consume lines until a stripped
line equal to the closing brace or the end of the stream; skip empty
lines; split every other line into tokens, convert them to floats and
require exactly the declared number of components, storing the entry;
a malformed line aborts with its line number and stripped content. -/
def spi1dBodyLoop (components : Int) :
    List (List Char) → SpiBodyState → SpiBodyState × Option SpiError
  | [], st => (st, none)
  | l :: rest, st =>
      let st := { st with currentLine := st.currentLine + 1 }
      let line := stripChars l
      if line = ("\x7d").data then (st, none)
      else if line.isEmpty then spi1dBodyLoop components rest st
      else
        match parseFloats (splitWs line) with
        | some values =>
            if components = Int.ofNat values.length then
              spi1dBodyLoop components rest (spi1dStoreLine st components values)
            else
              (st, some { error := ("Malformed LUT line.")
                          line := Int.ofNat st.currentLine
                          lineContent := String.mk line })
        | none =>
            (st, some { error := ("Malformed LUT line.")
                        line := Int.ofNat st.currentLine
                        lineContent := String.mk line })

/-- The range test on the Components header in LocalFileFormat::read of
FileFormatSpi1D.cpp: components below 0 or above 3 are rejected with the
message that components must be 1, 2 or 3. -/
def spi1dComponentsRangeInvalid (components : Int) : Bool :=
  decide (components < 0) || decide (components > 3)

/-- LocalFileFormat::read of FileFormatSpi1D.cpp over a stream given as a
list of lines.  Returns the parse outcome together with the trace of flat
LUT-array indices written during body parsing (empty when the body loop
is never reached).  After the header loop: missing Version, Length or
Components tags are rejected (their sentinels still being -1), then the
components range test runs, the Lut1DOpData of the declared length is
allocated, the body is parsed, and a line count different from the
declared length is rejected with the not-enough-entries error. -/
def spi1dRead (lines : List (List Char)) :
    Except SpiError Spi1DCachedFile × List Nat :=
  match spi1dHeaderLoop lines spiHeaderInit with
  | Except.error e => (Except.error e, [])
  | Except.ok (st, rest) =>
      if st.version = -1 then
        (Except.error { error := ("Could not find \x27Version\x27 Tag.")
                        line := -1, lineContent := ("") }, [])
      else if st.lut_size = -1 then
        (Except.error { error := ("Could not find \x27Length\x27 Tag.")
                        line := -1, lineContent := ("") }, [])
      else if st.components = -1 then
        (Except.error { error := ("Could not find \x27Components\x27 Tag.")
                        line := -1, lineContent := ("") }, [])
      else if spi1dComponentsRangeInvalid st.components then
        (Except.error { error := ("Components must be [1,2,3].")
                        line := -1, lineContent := ("") }, [])
      else
        let lut1d := { mkLut1DOpData st.lut_size.toNat with
                        fileOutputBitDepth := BitDepth.f32 }
        let body0 : SpiBodyState :=
          { arr := lut1d.array, i := 0, lineCount := 0
            currentLine := st.currentLine, writes := [] }
        let (bodySt, bodyErr) := spi1dBodyLoop st.components rest body0
        match bodyErr with
        | some e => (Except.error e, bodySt.writes)
        | none =>
            if Int.ofNat bodySt.lineCount ≠ st.lut_size then
              (Except.error { error := ("Not enough entries found.")
                              line := -1, lineContent := ("") },
                bodySt.writes)
            else
              (Except.ok { lut := { lut1d with array := bodySt.arr }
                           from_min := st.from_min
                           from_max := st.from_max }, bodySt.writes)

/-! ### FixedFunctionOp.cpp -/

/-- Modelled from the spec: FixedFunctionOpData (its implementation file
is not under src/).  Section 3 of the spec: a style tag from an
enumerated closed set plus an ordered list of numeric parameters.  The
enumeration is abstracted as a natural number tag, which none of the
claims depend on. -/
structure FixedFunctionOpData where
  style : Nat
  params : List ℚ
deriving DecidableEq, Repr

/-- Modelled from the spec: FixedFunctionOpData::getCacheID, a cache
fingerprint deterministic in the payload (section 4.3). -/
def fnDataCacheID (d : FixedFunctionOpData) : String :=
  toString d.style ++ (" ") ++ toString (d.params.map Rat.num) ++ (" ") ++
    toString (d.params.map Rat.den)

/-- Modelled from the spec: FixedFunctionOpData::finalize performs payload
validation and resolves derived state; it does not change the payload the
fingerprint is computed from (section 4.3: the fingerprint is
deterministic in kind and payload). -/
def fnDataFinalize (d : FixedFunctionOpData) : FixedFunctionOpData := d

/-- State of a FixedFunctionOp (the Op base class holds the data payload
and the m_cacheID string the finalize pass fills in). -/
structure FixedFunctionOpState where
  data : FixedFunctionOpData
  m_cacheID : String
deriving DecidableEq, Repr

/-- Optimization flags passed to Op::finalize; FixedFunctionOp::finalize
ignores them.  Modelled as a bit set. -/
def OptimizationFlags : Type := Nat

/-- FixedFunctionOp::canCombineWith of FixedFunctionOp.cpp: returns false
for every other op. -/
def ffCanCombineWith (_self : FixedFunctionOpState) (_op : Op) : Bool :=
  false

/-- FixedFunctionOp::combineWith of FixedFunctionOp.cpp: when
canCombineWith does not hold for the second op it throws the contract
violation exception, leaving the ops vector unchanged; the function body
contains nothing else. -/
def ffCombineWith (self : FixedFunctionOpState) (ops : List Op) (secondOp : Op) :
    Except String (List Op) :=
  if ffCanCombineWith self secondOp = false then
    Except.error (("FixedFunctionOp: canCombineWith must be checked ") ++
      ("before calling combineWith."))
  else Except.ok ops

/-- FixedFunctionOp::finalize of FixedFunctionOp.cpp: finalize the data
payload, then build m_cacheID from the op kind tag and the payload cache
ID; the optimization flags are unused. -/
def ffFinalize (_oFlags : OptimizationFlags) (op : FixedFunctionOpState) :
    FixedFunctionOpState :=
  let d := fnDataFinalize op.data
  { data := d
    m_cacheID := ("<FixedFunctionOp ") ++ fnDataCacheID d ++ (" ") ++ (">") }

/-! ### Concrete streams and cached files used by the scenario claims -/

/-- Scenario A stream: LUT_3D_SIZE 2 followed by exactly 8 RGB triples in
red-fastest order. -/
def scenarioALines : List (List Char) :=
  [("LUT_3D_SIZE 2").data,
   ("0.0 0.0 0.0").data, ("1.0 0.0 0.0").data,
   ("0.0 1.0 0.0").data, ("1.0 1.0 0.0").data,
   ("0.0 0.0 1.0").data, ("1.0 0.0 1.0").data,
   ("0.0 1.0 1.0").data, ("1.0 1.0 1.0").data]

/-- The 24 values of the Scenario A body, in stream order. -/
def scenarioAValues : List ℚ :=
  [0, 0, 0,  1, 0, 0,  0, 1, 0,  1, 1, 0,
   0, 0, 1,  1, 0, 1,  0, 1, 1,  1, 1, 1]

/-- Scenario B stream: LUT_3D_SIZE 2 followed by only 7 triples. -/
def scenarioBLines : List (List Char) :=
  [("LUT_3D_SIZE 2").data,
   ("0.0 0.0 0.0").data, ("1.0 0.0 0.0").data,
   ("0.0 1.0 0.0").data, ("1.0 1.0 0.0").data,
   ("0.0 0.0 1.0").data, ("1.0 0.0 1.0").data,
   ("0.0 1.0 1.0").data]

/-- Scenario C stream: Version 1, Components 1, Length 2, no From header,
body holding the single-component values 0.0 and 1.0. -/
def scenarioCLines : List (List Char) :=
  [("Version 1").data, ("Components 1").data, ("Length 2").data,
   ("\x7b").data, ("0.0").data, ("1.0").data, ("\x7d").data]

/-- An spi1d stream declaring Length 1 whose body holds two value lines:
the second line is one more than the declared length. -/
def oversizedBodyLines : List (List Char) :=
  [("Version 1").data, ("Components 1").data, ("Length 1").data,
   ("\x7b").data, ("0.0").data, ("1.0").data, ("\x7d").data]

/-- An spi1d stream declaring Components 0 with one non-empty body value
line. -/
def componentsZeroLines : List (List Char) :=
  [("Version 1").data, ("Components 0").data, ("Length 1").data,
   ("\x7b").data, ("0.5").data, ("\x7d").data]

/-- A concrete parsed spi1d cache entry (the Scenario C contents). -/
def spiCacheEx : Spi1DCachedFile :=
  { lut := { length := 2, interpolation := Interpolation.defaultInterp
             fileOutputBitDepth := BitDepth.f32
             array := [0, 0, 0, 1, 1, 1] }
    from_min := 0, from_max := 1 }

/-- A concrete parsed itx cache entry (the Scenario A contents). -/
def itxCacheEx : ItxCachedFile :=
  { lut3D := some { size := 2, interpolation := Interpolation.defaultInterp
                    fileOutputBitDepth := BitDepth.f32
                    array := scenarioAValues } }

/-! ### Claims -/

/-- C1: the claim states that both buildFileOps adapters abort with a
Direction error, appending no op, whenever the combined direction is
Unknown.  The itx adapter does; the spi1d adapter never tests for
Unknown: its else branch treats every non-Forward combined direction as
Inverse, so with a combined Unknown direction it returns normally after
appending the inverted 1-D LUT op and the inverted min-max op.  This
theorem evaluates both adapters at a combined Unknown direction,
exhibiting the divergence. -/
theorem c1_unknown_direction_divergence :
    itxBuildFileOps [] itxCacheEx TransformDirection.forward
        Interpolation.linear TransformDirection.unknown =
      Except.error
        ("Cannot build file format transform, unspecified transform direction.") ∧
    spi1dBuildFileOps [] spiCacheEx TransformDirection.forward
        Interpolation.linear TransformDirection.unknown =
      [Op.lut1DOp { length := 2, interpolation := Interpolation.linear
                    fileOutputBitDepth := BitDepth.f32
                    array := [0, 0, 0, 1, 1, 1] } TransformDirection.inverse,
       Op.minMaxOp [0, 0, 0] [1, 1, 1] TransformDirection.inverse] :=
  ⟨rfl, rfl⟩

/-- C2: for every cached spi1d file, buildFileOps under a combined
Forward direction appends exactly the min-max op (Forward) followed by
the 1-D LUT op (Forward); under a combined Inverse direction it appends
exactly the 1-D LUT op (Inverse) followed by the min-max op (Inverse) --
the reversed order with each element inverted. -/
theorem c2_spi1d_buildFileOps_order (ops : List Op) (cf : Spi1DCachedFile)
    (ftDir : TransformDirection) (interp : Interpolation)
    (dir : TransformDirection) :
    (CombineTransformDirections dir ftDir = TransformDirection.forward →
      spi1dBuildFileOps ops cf ftDir interp dir =
        ops ++ [Op.minMaxOp [cf.from_min, cf.from_min, cf.from_min]
                  [cf.from_max, cf.from_max, cf.from_max]
                  TransformDirection.forward,
                Op.lut1DOp { cf.lut with interpolation := interp }
                  TransformDirection.forward]) ∧
    (CombineTransformDirections dir ftDir = TransformDirection.inverse →
      spi1dBuildFileOps ops cf ftDir interp dir =
        ops ++ [Op.lut1DOp { cf.lut with interpolation := interp }
                  TransformDirection.inverse,
                Op.minMaxOp [cf.from_min, cf.from_min, cf.from_min]
                  [cf.from_max, cf.from_max, cf.from_max]
                  TransformDirection.inverse]) := by
  constructor
  · intro h
    simp [spi1dBuildFileOps, h]
  · intro h
    simp [spi1dBuildFileOps, h]

/-- Witness for C2 at the Scenario C cache entry: requested Forward with
file transform Forward combines to Forward, and requested Forward with
file transform Inverse combines to Inverse. -/
theorem c2_spi1d_buildFileOps_order_witness :
    spi1dBuildFileOps [] spiCacheEx TransformDirection.forward
        Interpolation.linear TransformDirection.forward =
      [Op.minMaxOp [0, 0, 0] [1, 1, 1] TransformDirection.forward,
       Op.lut1DOp { length := 2, interpolation := Interpolation.linear
                    fileOutputBitDepth := BitDepth.f32
                    array := [0, 0, 0, 1, 1, 1] } TransformDirection.forward] ∧
    spi1dBuildFileOps [] spiCacheEx TransformDirection.inverse
        Interpolation.linear TransformDirection.forward =
      [Op.lut1DOp { length := 2, interpolation := Interpolation.linear
                    fileOutputBitDepth := BitDepth.f32
                    array := [0, 0, 0, 1, 1, 1] } TransformDirection.inverse,
       Op.minMaxOp [0, 0, 0] [1, 1, 1] TransformDirection.inverse] :=
  ⟨(c2_spi1d_buildFileOps_order [] spiCacheEx TransformDirection.forward
      Interpolation.linear TransformDirection.forward).1 rfl,
   (c2_spi1d_buildFileOps_order [] spiCacheEx TransformDirection.inverse
      Interpolation.linear TransformDirection.forward).2 rfl⟩

/-- C3: parsing an itx stream declaring LUT_3D_SIZE 2 whose body holds
only 7 RGB triples fails with the shape-mismatch error stating the actual
count 7 and the expected count 8, with line number -1, so the assembled
exception text carries no line part. -/
theorem c3_itx_shape_mismatch :
    itxRead scenarioBLines =
      Except.error
        { error := ("Incorrect number of 3D LUT entries. Found 7, expected 8.")
          line := -1, lineContent := ("") } ∧
    itxErrorString ("lut.itx")
        { error := ("Incorrect number of 3D LUT entries. Found 7, expected 8.")
          line := -1, lineContent := ("") } =
      ("Error parsing Iridas .itx file (lut.itx).  Incorrect number of 3D LUT entries. Found 7, expected 8.") :=
  ⟨rfl, rfl⟩

/-- C4: parsing an itx stream declaring LUT_3D_SIZE 2 followed by exactly
8 RGB triples succeeds with a LUT3D of edge size 2 whose flat sample
array is the 24 parsed values in stream (red-fastest) order. -/
theorem c4_itx_read_success :
    itxRead scenarioALines =
      Except.ok
        { lut3D := some
            { size := 2, interpolation := Interpolation.defaultInterp
              fileOutputBitDepth := BitDepth.f32
              array := scenarioAValues } } ∧
    scenarioAValues.length = 24 :=
  ⟨rfl, rfl⟩

/-- C5: parsing the Scenario C spi1d stream (Version 1, Components 1,
Length 2, body values 0.0 and 1.0, no From header) yields a LUT1D of
length 2 with flat samples [0,0,0,1,1,1] (each single-component value
replicated to R, G and B) and the default domain from_min 0, from_max
1. -/
theorem c5_spi1d_read_success :
    (spi1dRead scenarioCLines).1 =
      Except.ok
        { lut := { length := 2, interpolation := Interpolation.defaultInterp
                   fileOutputBitDepth := BitDepth.f32
                   array := [0, 0, 0, 1, 1, 1] }
          from_min := 0, from_max := 1 } :=
  rfl

/-- C7: FixedFunctionOp reports canCombineWith false for every second op,
and combineWith with any second op fails with the contract-violation
exception, returning no modified ops vector. -/
theorem c7_ff_combine_contract (self : FixedFunctionOpState) (ops : List Op)
    (secondOp : Op) :
    ffCanCombineWith self secondOp = false ∧
    ffCombineWith self ops secondOp =
      Except.error
        ("FixedFunctionOp: canCombineWith must be checked before calling combineWith.") :=
  ⟨rfl, rfl⟩

/-- C8: finalizing a FixedFunctionOp twice yields the same cache
fingerprint as finalizing it once, for every op state and every pair of
optimization-flag arguments, and the fingerprint is the deterministic
string built from the op kind tag and the data payload cache ID. -/
theorem c8_ff_finalize_idempotent (op : FixedFunctionOpState)
    (f1 f2 : OptimizationFlags) :
    (ffFinalize f2 (ffFinalize f1 op)).m_cacheID = (ffFinalize f1 op).m_cacheID ∧
    (ffFinalize f1 op).m_cacheID =
      ("<FixedFunctionOp ") ++ fnDataCacheID op.data ++ (" ") ++ (">") :=
  ⟨rfl, rfl⟩

/-- C9: the claim states that every write into the LUT sample array stays
below 3 times the declared Length even when the body holds more value
lines than the declared Length.  On the stream oversizedBodyLines
(Length 1, two body value lines) the body loop performs the writes
[0,1,2,3,4,5]: the last three are not below 3 times the declared Length 1
(they are past the end of the 3-entry array), and only afterwards does
the line-count check reject the stream. -/
theorem c9_spi1d_oversized_body_writes :
    (spi1dRead oversizedBodyLines).2 = [0, 1, 2, 3, 4, 5] ∧
    (spi1dRead oversizedBodyLines).1 =
      Except.error { error := ("Not enough entries found.")
                     line := -1, lineContent := ("") } ∧
    ∃ w ∈ (spi1dRead oversizedBodyLines).2, 3 * 1 ≤ w := by
  refine ⟨rfl, rfl, 5, ?_, by norm_num⟩
  show (5 : ℕ) ∈ [0, 1, 2, 3, 4, 5]
  simp

/-- C10: the Components range test of the spi1d reader holds exactly for
declared values that are negative or greater than 3 (its rejection
message says Components must be [1,2,3]); the value 0 passes the test,
and parsing a stream declaring Components 0 then rejects its first
non-empty body value line as a malformed LUT line, because the count of
parsed values on that line differs from 0. -/
theorem c10_components_range :
    (∀ c : Int, spi1dComponentsRangeInvalid c = true ↔ (c < 0 ∨ 3 < c)) ∧
    spi1dComponentsRangeInvalid 0 = false ∧
    (spi1dRead componentsZeroLines).1 =
      Except.error { error := ("Malformed LUT line.")
                     line := 5, lineContent := ("0.5") } := by
  refine ⟨?_, rfl, rfl⟩
  intro c
  simp [spi1dComponentsRangeInvalid]

/-- A string in fixed 6-decimal notation: some prefix, a decimal point,
then exactly six decimal digits. -/
def sixDecimalString (s : String) : Prop :=
  ∃ pre post : List Char, s.data = pre ++ ('.') :: post ∧ post.length = 6 ∧
    ∀ c ∈ post, c.isDigit

/-- Digit characters of values below ten are decimal digits. -/
theorem digitChar_isDigit : ∀ k : Nat, k < 10 → (Nat.digitChar k).isDigit := by
  decide

/-- Every character produced by pad6 is a decimal digit. -/
theorem pad6_digits (m : Nat) : ∀ c ∈ pad6 m, c.isDigit := by
  intro c hc
  simp only [pad6, List.mem_cons, List.not_mem_nil, or_false] at hc
  rcases hc with h | h | h | h | h | h <;> subst h <;>
    exact digitChar_isDigit _ (Nat.mod_lt _ (by norm_num))

/-- The fixed6 rendering always carries exactly six decimal digits after
its decimal point. -/
theorem fixed6_sixDecimal (q : ℚ) : sixDecimalString (fixed6 q) := by
  refine ⟨((if q < 0 then ("-") else ("")) ++
      toString ((round (|q| * 1000000)) / 1000000)).data,
    pad6 (((round (|q| * 1000000))) % 1000000).toNat, ?_, rfl, pad6_digits _⟩
  simp [fixed6, String.data_append]

/-- C6: for every bake request on the itx format, an unset cube size (-1)
uses the default edge size 64 and every requested size is clamped to a
minimum of 2; the output is the header line LUT_3D_SIZE followed by the
size, then size cubed rows, each row one RGB triple rendered in fixed
6-decimal notation. -/
theorem c6_itx_bake_structure (req : Int)
    (pixelEval : ℚ × ℚ × ℚ → ℚ × ℚ × ℚ) :
    (req = -1 → itxBakeSize req = 64) ∧
    2 ≤ itxBakeSize req ∧
    ∃ triples : List (ℚ × ℚ × ℚ),
      triples.length = (itxBakeSize req).toNat ^ 3 ∧
      itxBake ("iridas_itx") req pixelEval =
        Except.ok (("LUT_3D_SIZE ") ++ toString (itxBakeSize req) ++ ("\n") ++
          String.join (triples.map itxSampleLine) ++ ("\n")) ∧
      ∀ t ∈ triples,
        itxSampleLine t =
          fixed6 t.1 ++ (" ") ++ fixed6 t.2.1 ++ (" ") ++ fixed6 t.2.2 ++
            ("\n") ∧
        sixDecimalString (fixed6 t.1) ∧ sixDecimalString (fixed6 t.2.1) ∧
          sixDecimalString (fixed6 t.2.2) := by
  refine ⟨?_, le_max_left 2 _,
    (GenerateIdentityLut3D (itxBakeSize req).toNat).map pixelEval,
    ?_, ?_, ?_⟩
  · intro h
    subst h
    simp [itxBakeSize]
  · simp [GenerateIdentityLut3D]
    ring
  · have h2 : ¬ (itxBakeSize req < 2) := not_lt.mpr (le_max_left 2 _)
    simp [itxBake, h2]
  · intro t _
    exact ⟨rfl, fixed6_sixDecimal _, fixed6_sixDecimal _, fixed6_sixDecimal _⟩

/-- Witness for C6: with the cube size unset (-1) the edge size used is
the default 64, which satisfies the minimum clamp. -/
theorem c6_itx_bake_structure_witness :
    itxBakeSize (-1) = 64 ∧ 2 ≤ itxBakeSize (-1) :=
  ⟨(c6_itx_bake_structure (-1) id).1 rfl, (c6_itx_bake_structure (-1) id).2.1⟩
